import Mathlib

/-!
# backend_subject: a shallow embedding of the HTTP subject service

The Go packages `internal` and `internal/app` are embedded as pure Lean
functions.  Library calls whose code is outside the repository
(`jwt.Parse`, `strings.ToLower`, `encoding/json`, `strconv.Atoi`, the pgx
driver, the logger and the metrics objects) are taken as parameters; the
state they act on is passed explicitly.
-/

namespace BackendSubject

/-! ## internal/app/datatype.go -/

/-- The record `app.Subject`.  The Go field `Type` is spelled `Type_`. -/
structure Subject where
  ID : Int
  Comment : String
  DateCreate : String
  Description : String
  LastTimeUpdate : String
  Name : String
  Type_ : String
  ParentID : Int
deriving DecidableEq, Repr

/-! ## Errors (transport.go, lines 18-25) -/

/-- The six package-level error variables of transport.go. -/
inductive Sentinel where
  | BadRouting
  | NotFound
  | AlreadyExists
  | InconsistentIDs
  | Forbidden
  | PreconditionRequired
deriving DecidableEq, Repr

/-- A Go `error` value: one of the package's variables; an error made by
`errors.New` or `fmt.Errorf` without `%w` (identified by its message); an error
whose `Unwrap` gives another one; an error whose `Unwrap` gives two errors, as
`fmt.Errorf` with two `%w` and `errors.Join` make (more than two nest); or an
error of a type with a method `Is` that answers true for the listed package
variables. -/
inductive GoError where
  | sentinel (s : Sentinel)
  | plain (msg : String)
  | wrapped (msg : String) (inner : GoError)
  | joined (msg : String) (first second : GoError)
  | matching (msg : String) (targets : List Sentinel)
deriving DecidableEq, Repr

def ErrBadRouting : GoError := .sentinel .BadRouting
def ErrNotFound : GoError := .sentinel .NotFound
def ErrAlreadyExists : GoError := .sentinel .AlreadyExists
def ErrInconsistentIDs : GoError := .sentinel .InconsistentIDs
def ErrForbidden : GoError := .sentinel .Forbidden
def ErrPreconditionRequired : GoError := .sentinel .PreconditionRequired

/-- The text given to `errors.New` for each package-level variable. -/
def Sentinel.message : Sentinel → String
  | .BadRouting => "inconsistent mapping between route and handler (programmer error)"
  | .NotFound => "not found"
  | .AlreadyExists => "this row is already exists"
  | .InconsistentIDs => "inconsistent IDs"
  | .Forbidden => "role is not administrator"
  | .PreconditionRequired => "header get authorization"

/-- The method `err.Error()`. -/
def GoError.Error : GoError → String
  | .sentinel s => s.message
  | .plain msg => msg
  | .wrapped msg _ => msg
  | .joined msg _ _ => msg
  | .matching msg _ => msg

/-- The call `errors.Is(err, target)` for a package-level `target`: walk the
tree `Unwrap` spans below `err`, depth first, and at each error compare it with
the target by identity and ask its method `Is`, when it has one. -/
def errorsIs : GoError → Sentinel → Bool
  | .sentinel s, t => decide (s = t)
  | .plain _, _ => false
  | .wrapped _ inner, t => errorsIs inner t
  | .joined _ first second, t => errorsIs first t || errorsIs second t
  | .matching _ targets, t => decide (t ∈ targets)

/-- The call `fmt.Errorf(label ++ "%v\n", err)`: a fresh error that does not
wrap `err`. -/
def Errorf (label : String) (err : GoError) : GoError :=
  .plain (label ++ err.Error ++ "\n")

def StatusOK : Nat := 200
def StatusBadRequest : Nat := 400
def StatusForbidden : Nat := 403
def StatusNotFound : Nat := 404
def StatusPreconditionRequired : Nat := 428
def StatusInternalServerError : Nat := 500

/-- The function `codeFrom` (transport.go, lines 168-181). -/
def codeFrom (err : GoError) : Nat :=
  if errorsIs err .NotFound then StatusNotFound
  else if errorsIs err .AlreadyExists || errorsIs err .InconsistentIDs then StatusBadRequest
  else if errorsIs err .Forbidden then StatusForbidden
  else if errorsIs err .PreconditionRequired then StatusPreconditionRequired
  else StatusInternalServerError

/-! ## Requests and the JWT library -/

/-- The parts of `*http.Request` the decoders read: the header, the body and
the route variables `mux.Vars(r)`. -/
structure HTTPRequest where
  Method : String
  Header : List (String × String)
  Body : String
  Vars : List (String × String)
deriving DecidableEq, Repr

/-- The call `r.Header.Get(key)`: the value stored under `key`, or the empty
string when the header is absent. -/
def HeaderGet (h : List (String × String)) (key : String) : String :=
  match h.lookup key with
  | some v => v
  | none => ""

/-- The call `strings.Split(s, sep)` for a separator of one character, on the
characters of `s`: a new part starts after every separator. -/
def splitChars (sep : Char) : List Char → List (List Char)
  | [] => [[]]
  | c :: cs =>
    if c = sep then [] :: splitChars sep cs
    else
      match splitChars sep cs with
      | [] => [[c]]
      | p :: ps => (c :: p) :: ps

/-- The call `strings.Split(s, " ")`. -/
def stringsSplit (s : String) : List String :=
  (splitChars ' ' s.data).map String.mk

/-- A value of a JWT claim after JSON decoding. -/
inductive ClaimValue where
  | str (s : String)
  | num (n : Int)
  | bool (b : Bool)
  | null
  | other
deriving DecidableEq, Repr

/-- The dynamic type of `token.Claims`. -/
inductive TokenClaims where
  | MapClaims (m : List (String × ClaimValue))
  | other
deriving DecidableEq, Repr

/-- The dynamic type of `token.Method`. -/
inductive SigningMethod where
  | HMAC (alg : String)
  | other (alg : String)
deriving DecidableEq, Repr

/-- The fields of `*jwt.Token` that extractTokenMetadata reads. -/
structure Token where
  Method : SigningMethod
  Claims : TokenClaims
  Valid : Bool
deriving DecidableEq, Repr

/-- Library and environment functions the transport layer calls. -/
structure Runtime where
  /-- The call `jwt.Parse(tokenString, keyFunc)`. -/
  jwtParse : String → (SigningMethod → Except GoError String) → Except GoError Token
  /-- The call `strings.ToLower`. -/
  ToLower : String → String
  /-- The call `json.NewDecoder(body).Decode(&subject)`. -/
  jsonDecode : String → Except GoError Subject
  /-- The call `strconv.Atoi`. -/
  Atoi : String → Except GoError Int
  /-- The call `app.GetEnv(key, defaultValue)`. -/
  GetEnv : String → String → String

/-! ## internal/endpoint.go: request and response shapes -/

/-- The four request structs of endpoint.go. -/
inductive Request where
  | getSubjectsRequest (User : String) (Role : String)
  | postSubjectRequest (Subject : Subject)
  | putSubjectRequest (Subject : Subject)
  | deleteSubjectRequest (id : Int)
deriving DecidableEq, Repr

/-- The four response structs of endpoint.go. -/
inductive Response where
  | getSubjectsResponse (Subjects : List Subject) (Err : Option GoError)
  | postSubjectResponse (Err : Option GoError)
  | putSubjectResponse (Err : Option GoError)
  | deleteSubjectResponse (Err : Option GoError)
deriving DecidableEq, Repr

/-! ## internal/transport.go: the auth check and the decoders -/

/-- The key function handed to `jwt.Parse` (transport.go, lines 198-204). -/
def keyFunc (rt : Runtime) (m : SigningMethod) : Except GoError String :=
  match m with
  | .HMAC _ => .ok (rt.GetEnv "SECRET_KEY" "secretkey")
  | .other _ => .error (.plain "unexpected signing method")

/-- The type assertion `v.(string)` on a claim looked up in the map. -/
def claimString (m : List (String × ClaimValue)) (key : String) : Option String :=
  match m.lookup key with
  | some (.str s) => some s
  | _ => none

/-- The function `extractTokenMetadata` (transport.go, lines 196-222). -/
def extractTokenMetadata (rt : Runtime) (headerToken : String) :
    Except GoError (String × String) :=
  match rt.jwtParse headerToken (keyFunc rt) with
  | .error err => .error err
  | .ok token =>
    match token.Claims, token.Valid with
    | .MapClaims claims, true =>
      match claimString claims "username" with
      | none => .error (.plain "not username")
      | some user =>
        match claimString claims "role" with
        | none => .error (.plain "not role")
        | some role => .ok (user, role)
    | _, _ => .ok ("", "")

/-- The function `getPermissionParams` (transport.go, lines 184-194). -/
def getPermissionParams (rt : Runtime) (r : HTTPRequest) :
    Except GoError (String × String) :=
  match stringsSplit (HeaderGet r.Header "Authorization") with
  | [_, credential] =>
    match extractTokenMetadata rt credential with
    | .error _ => .error ErrPreconditionRequired
    | .ok (user, role) => .ok (user, role)
  | _ => .error ErrPreconditionRequired

/-- The function `decodeGetSubjectsRequest` (transport.go, lines 87-96). -/
def decodeGetSubjectsRequest (rt : Runtime) (r : HTTPRequest) : Except GoError Request :=
  match getPermissionParams rt r with
  | .error errToken => .error errToken
  | .ok (_, role) =>
    if rt.ToLower role ≠ "administrator" then .error ErrForbidden
    else .ok (.getSubjectsRequest "" "")

/-- The function `decodePostSubjectRequest` (transport.go, lines 98-104). -/
def decodePostSubjectRequest (rt : Runtime) (r : HTTPRequest) : Except GoError Request :=
  match rt.jsonDecode r.Body with
  | .error e => .error e
  | .ok addSubject => .ok (.postSubjectRequest addSubject)

/-- The function `decodePutSubjectRequest` (transport.go, lines 106-121). -/
def decodePutSubjectRequest (rt : Runtime) (r : HTTPRequest) : Except GoError Request :=
  match getPermissionParams rt r with
  | .error errToken => .error errToken
  | .ok (_, role) =>
    if rt.ToLower role ≠ "administrator" then .error ErrForbidden
    else
      match rt.jsonDecode r.Body with
      | .error e => .error e
      | .ok updateSubject => .ok (.putSubjectRequest updateSubject)

/-- The function `decodeDeleteSubjectRequest` (transport.go, lines 123-142).
A missing route variable reads as the empty string with `ok` false. -/
def decodeDeleteSubjectRequest (rt : Runtime) (r : HTTPRequest) : Except GoError Request :=
  match getPermissionParams rt r with
  | .error errToken => .error errToken
  | .ok (_, role) =>
    if rt.ToLower role ≠ "administrator" then .error ErrForbidden
    else
      let lookup := r.Vars.lookup "id"
      let value := lookup.getD ""
      let ok := lookup.isSome
      match rt.Atoi value with
      | .error err => .error err
      | .ok id =>
        if !ok then .error ErrBadRouting
        else .ok (.deleteSubjectRequest id)

/-! ## internal/transport.go: encoding of responses -/

/-- The Go value handed to `json.NewEncoder(w).Encode`: the map with the one
key `error`, or a response struct. -/
inductive Payload where
  | errorObject (message : String)
  | response (r : Response)
deriving DecidableEq, Repr

/-- The state of an `http.ResponseWriter`: the header map, the status line once
it is written, and the documents written to the body. -/
structure ResponseWriter where
  header : List (String × String)
  status : Option Nat
  body : List Payload
deriving DecidableEq, Repr

/-- A writer nothing has been written to. -/
def ResponseWriter.fresh : ResponseWriter := ⟨[], none, []⟩

/-- The call `w.Header().Set(key, value)`. -/
def ResponseWriter.HeaderSet (w : ResponseWriter) (key value : String) : ResponseWriter :=
  { w with header := (key, value) :: w.header.filter (fun p => p.1 ≠ key) }

/-- The call `w.WriteHeader(code)`: only the first status written counts. -/
def ResponseWriter.WriteHeader (w : ResponseWriter) (code : Nat) : ResponseWriter :=
  match w.status with
  | some _ => w
  | none => { w with status := some code }

/-- The call `json.NewEncoder(w).Encode(v)`: the first write sends status 200
when no status was written before. -/
def ResponseWriter.Encode (w : ResponseWriter) (v : Payload) : ResponseWriter :=
  { (w.WriteHeader StatusOK) with body := w.body ++ [v] }

/-- The type assertion `response.(errorer)` of encodeResponse, giving the value
of the method `error()` when the dynamic type of the response has that method.
No response struct of endpoint.go declares a method `error()`, so the assertion
fails for each of them. -/
def Response.errorer : Response → Option (Option GoError)
  | .getSubjectsResponse _ _ => none
  | .postSubjectResponse _ => none
  | .putSubjectResponse _ => none
  | .deleteSubjectResponse _ => none

/-- The function `encodeError` (transport.go, lines 158-167), called with a
non-nil error. -/
def encodeError (err : GoError) (w : ResponseWriter) : ResponseWriter :=
  let w := w.HeaderSet "Content-Type" "application/json; charset=utf-8"
  let w := w.WriteHeader (codeFrom err)
  w.Encode (.errorObject err.Error)

/-- The function `encodeResponse` (transport.go, lines 149-156).  The second
component is the error it returns. -/
def encodeResponse (w : ResponseWriter) (response : Response) :
    ResponseWriter × Option GoError :=
  match response.errorer with
  | some (some e) => (encodeError e w, none)
  | _ =>
    let w := w.HeaderSet "Content-Type" "application/json; charset=utf-8"
    (w.Encode (.response response), none)

/-! ## internal/service.go: the Service interface -/

/-- The interface `Service`.  Every method takes the state of the world before
the call and returns its results with the state after it. -/
structure Service (W : Type) where
  GetSubjects : W → (List Subject × Option GoError) × W
  AddSubject : Subject → W → Option GoError × W
  UpdateSubject : Subject → W → Option GoError × W
  DeleteSubject : Int → W → Option GoError × W

/-! ## internal/endpoint.go: the endpoints -/

/-- A go-kit `endpoint.Endpoint`.  The result `none` is a panic (a failed type
assertion on the request). -/
abbrev Endpoint (W : Type) := Request → W → Option ((Response × Option GoError) × W)

/-- The function `MakeGetSubjectsEndpoint` (endpoint.go, lines 102-107). -/
def MakeGetSubjectsEndpoint {W : Type} (s : Service W) : Endpoint W :=
  fun _ w =>
    let ((t, e), w) := s.GetSubjects w
    some ((.getSubjectsResponse t e, none), w)

/-- The function `MakePostSubjectEndpoint` (endpoint.go, lines 109-115). -/
def MakePostSubjectEndpoint {W : Type} (s : Service W) : Endpoint W :=
  fun request w =>
    match request with
    | .postSubjectRequest subject =>
      let (e, w) := s.AddSubject subject w
      some ((.postSubjectResponse e, none), w)
    | _ => none

/-- The function `MakePutSubjectEndpoint` (endpoint.go, lines 117-123). -/
def MakePutSubjectEndpoint {W : Type} (s : Service W) : Endpoint W :=
  fun request w =>
    match request with
    | .putSubjectRequest subject =>
      let (e, w) := s.UpdateSubject subject w
      some ((.putSubjectResponse e, none), w)
    | _ => none

/-- The function `MakeDeleteSubjectEndpoint` (endpoint.go, lines 125-131). -/
def MakeDeleteSubjectEndpoint {W : Type} (s : Service W) : Endpoint W :=
  fun request w =>
    match request with
    | .deleteSubjectRequest id =>
      let (e, w) := s.DeleteSubject id w
      some ((.deleteSubjectResponse e, none), w)
    | _ => none

/-! ## The go-kit server around a decoder, an endpoint and an encoder -/

/-- The method `ServeHTTP` of the go-kit `httptransport.Server` built by
`httptransport.NewServer(e, dec, enc, options...)` with an error handler and an
error encoder as its options: decode the request, call the endpoint, encode
the response; an error at any of the three steps goes to the error handler and
the error encoder and ends the request.  The result `none` is a panic. -/
def ServeHTTP {W : Type} (e : Endpoint W) (dec : HTTPRequest → Except GoError Request)
    (enc : ResponseWriter → Response → ResponseWriter × Option GoError)
    (errorHandler : GoError → W → W) (errorEncoder : GoError → ResponseWriter → ResponseWriter)
    (r : HTTPRequest) (w : ResponseWriter) (st : W) : Option (ResponseWriter × W) :=
  match dec r with
  | .error err => some (errorEncoder err w, errorHandler err st)
  | .ok request =>
    match e request st with
    | none => none
    | some ((_, some err), st) => some (errorEncoder err w, errorHandler err st)
    | some ((response, none), st) =>
      match enc w response with
      | (w, some err) => some (errorEncoder err w, errorHandler err st)
      | (w, none) => some (w, st)

/-- The server registered for `GET /subjects` (transport.go, lines 53-58). -/
def getSubjectsServer {W : Type} (s : Service W) (rt : Runtime) (logger : GoError → W → W) :
    HTTPRequest → ResponseWriter → W → Option (ResponseWriter × W) :=
  ServeHTTP (MakeGetSubjectsEndpoint s) (decodeGetSubjectsRequest rt) encodeResponse logger encodeError

/-- The server registered for `POST /subject` (transport.go, lines 60-65). -/
def postSubjectServer {W : Type} (s : Service W) (rt : Runtime) (logger : GoError → W → W) :
    HTTPRequest → ResponseWriter → W → Option (ResponseWriter × W) :=
  ServeHTTP (MakePostSubjectEndpoint s) (decodePostSubjectRequest rt) encodeResponse logger encodeError

/-- The server registered for `PUT /subject` (transport.go, lines 67-72). -/
def putSubjectServer {W : Type} (s : Service W) (rt : Runtime) (logger : GoError → W → W) :
    HTTPRequest → ResponseWriter → W → Option (ResponseWriter × W) :=
  ServeHTTP (MakePutSubjectEndpoint s) (decodePutSubjectRequest rt) encodeResponse logger encodeError

/-- The server registered for `DELETE /subject/{id}` (transport.go, lines 74-79). -/
def deleteSubjectServer {W : Type} (s : Service W) (rt : Runtime) (logger : GoError → W → W) :
    HTTPRequest → ResponseWriter → W → Option (ResponseWriter × W) :=
  ServeHTTP (MakeDeleteSubjectEndpoint s) (decodeDeleteSubjectRequest rt) encodeResponse logger encodeError

/-! ## The database driver (pgx) as seen by internal/service.go -/

/-- An argument bound to a placeholder of a statement. -/
inductive SqlArg where
  | text (s : String)
  | int (n : Int)
  | timestamp (t : Int)
deriving DecidableEq, Repr

/-- The value `pgx.Rows` of a query that started: for every row `rows.Next()`
delivers, what `rows.Scan(&res)` yields (the scanned text or an error); and the
error `rows.Err()` reports once `rows.Next()` has returned false, non-nil when
the query failed during its execution and the stream of rows ended early. -/
structure Rows where
  scans : List (Except GoError String)
  Err : Option GoError

/-- The calls service.go makes on the pgx driver, each acting on the state of
the world. -/
structure Pgx (W : Type) where
  /-- The call `pgx.Connect(ctx, psqlInfo)`. -/
  Connect : String → W → Option GoError × W
  /-- The deferred call `conn.Close(ctx)`, whose error is not read. -/
  Close : W → W
  /-- The call `conn.Query(ctx, sql)`: an error, or the rows. -/
  Query : String → W → Except GoError Rows × W
  /-- The call `conn.BeginTx(ctx, pgx.TxOptions{})`. -/
  BeginTx : W → Option GoError × W
  /-- The call `conn.Exec(ctx, sql, args...)`. -/
  Exec : String → List SqlArg → W → Option GoError × W
  /-- The call `tx.Exec(ctx, sql, args...)`. -/
  TxExec : String → List SqlArg → W → Option GoError × W
  /-- The call `tx.Commit(ctx)`. -/
  Commit : W → Option GoError × W
  /-- The call `tx.Rollback(ctx)`. -/
  Rollback : W → Option GoError × W

/-- What the base service reads from its surroundings: the driver, the clock
behind `time.Now()` (nanoseconds), the environment readers of package app and
`json.Unmarshal` into a Subject. -/
structure ServiceEnv (W : Type) where
  db : Pgx W
  now : W → Int
  GetEnv : String → String → String
  GetEnvAsInt : String → Int → Int
  jsonUnmarshal : String → Except GoError Subject

/-- The connection string every method of the base service builds with
`fmt.Sprintf` (service.go, lines 44-48). -/
def psqlInfo {W : Type} (env : ServiceEnv W) : String :=
  "host=" ++ env.GetEnv "DB_HOST" "localhost" ++
  " port=" ++ toString (env.GetEnvAsInt "DB_PORT" 5432) ++
  " user=" ++ env.GetEnv "DB_USER" "postgres" ++
  " password=" ++ env.GetEnv "DB_PASSWORD" "pgpassword" ++
  " dbname=" ++ env.GetEnv "DB_NAME" "generate" ++ " sslmode=disable"

/-- The statement of GetSubjects (service.go, lines 56-57). -/
def selectSQL : String :=
  "select to_json(t.*)\n\t\t\t\t\tfrom (select id,comment,date_create, description , last_time_update, name, type, parent_id from subject) t"

/-- The statement of AddSubject (service.go, line 111). -/
def insertSQL : String :=
  "insert into subject (comment,date_create, description , last_time_update, name, type, parent_id) values($1, $2, $3, $4, $5, $6, $7)"

/-- The statement of UpdateSubject (service.go, line 133). -/
def updateSQL : String :=
  "update subject set comment = $2, description = $3 , last_time_update = $4, name = $5, type = $6, parent_id = $7 where id = $1"

/-- The statement of DeleteSubject (service.go, line 154). -/
def deleteSQL : String := "delete from subject where id = $1"

/-- The arguments AddSubject passes after the statement (service.go, line 112). -/
def insertArgs (subject : Subject) (t : Int) : List SqlArg :=
  [.text subject.Comment, .timestamp t, .text subject.Description, .text subject.Description,
   .timestamp t, .text subject.Name, .text subject.Type_, .int subject.ParentID]

/-- The arguments UpdateSubject passes after the statement (service.go, line 134). -/
def updateArgs (subject : Subject) (t : Int) : List SqlArg :=
  [.int subject.ID, .text subject.Comment, .text subject.Description, .timestamp t,
   .text subject.Name, .text subject.Type_, .int subject.ParentID]

/-- The loop `for rows.Next()` of GetSubjects (service.go, lines 63-78), started
with the subjects collected so far. -/
def scanRows (jsonUnmarshal : String → Except GoError Subject) :
    List (Except GoError String) → List Subject → List Subject × Option GoError
  | [], subjects => (subjects, none)
  | .error errScan :: _, subjects => (subjects, some (Errorf "GetSubjects rows.Scan: " errScan))
  | .ok res :: rest, subjects =>
    match jsonUnmarshal res with
    | .error errU => (subjects, some (Errorf "GetSubjects json.Unmarshal: " errU))
    | .ok result => scanRows jsonUnmarshal rest (subjects ++ [result])

/-- The method `userService.GetSubjects` (service.go, lines 42-79).  It loops
over the rows `rows.Next()` delivers and never calls `rows.Err()`. -/
def userService.GetSubjects {W : Type} (env : ServiceEnv W) :
    W → (List Subject × Option GoError) × W :=
  fun w =>
    let subjects : List Subject := []
    match env.db.Connect (psqlInfo env) w with
    | (some err, w) => ((subjects, some (Errorf "GetSubjects. Unable to connect to database: " err)), w)
    | (none, w) =>
      match env.db.Query selectSQL w with
      | (.error errRows, w) => ((subjects, some (Errorf "GetSubjects QueryRow: " errRows)), env.db.Close w)
      | (.ok rows, w) => (scanRows env.jsonUnmarshal rows.scans subjects, env.db.Close w)

/-- The method `userService.AddSubject` (service.go, lines 81-118).  The deferred
functions run last registered first: Commit or Rollback, then Close. -/
def userService.AddSubject {W : Type} (env : ServiceEnv W) (subject : Subject) :
    W → Option GoError × W :=
  fun w =>
    match env.db.Connect (psqlInfo env) w with
    | (some err, w) => (some (Errorf "AddSubject. Unable to connect to database: " err), w)
    | (none, w) =>
      match env.db.BeginTx w with
      | (some err, w) => (some (Errorf "AddSubject conn.BeginTx " err), env.db.Close w)
      | (none, w) =>
        match env.db.TxExec insertSQL (insertArgs subject (env.now w)) w with
        | (some err, w) =>
          let errA := Errorf "AddSubject insert into subject: " err
          (some errA, env.db.Close (env.db.Rollback w).2)
        | (none, w) => (none, env.db.Close (env.db.Commit w).2)

/-- The method `userService.UpdateSubject` (service.go, lines 119-139). -/
def userService.UpdateSubject {W : Type} (env : ServiceEnv W) (subject : Subject) :
    W → Option GoError × W :=
  fun w =>
    match env.db.Connect (psqlInfo env) w with
    | (some err, w) => (some (Errorf "UpdateSubject. Unable to connect to database: " err), w)
    | (none, w) =>
      match env.db.Exec updateSQL (updateArgs subject (env.now w)) w with
      | (some errU, w) => (some (Errorf "UpdateSubject conn.Exec: " errU), env.db.Close w)
      | (none, w) => (none, env.db.Close w)

/-- The method `userService.DeleteSubject` (service.go, lines 140-160). -/
def userService.DeleteSubject {W : Type} (env : ServiceEnv W) (id : Int) :
    W → Option GoError × W :=
  fun w =>
    match env.db.Connect (psqlInfo env) w with
    | (some err, w) => (some (Errorf "DeleteSubject. Unable to connect to database: " err), w)
    | (none, w) =>
      match env.db.Exec deleteSQL [.int id] w with
      | (some errD, w) => (some (Errorf "DeleteSubject conn.Exec: " errD), env.db.Close w)
      | (none, w) => (none, env.db.Close w)

/-- The function `NewBasicService` (service.go, lines 25-29). -/
def NewBasicService {W : Type} (env : ServiceEnv W) : Service W where
  GetSubjects := userService.GetSubjects env
  AddSubject := userService.AddSubject env
  UpdateSubject := userService.UpdateSubject env
  DeleteSubject := userService.DeleteSubject env

/-! ## internal/middleware.go -/

/-- The fields a logging decorator attaches to its record: `took` is
`time.Since(begin).Milliseconds()`, `error` is the error of the call. -/
structure LogFields where
  took : Int
  error : Option GoError
deriving DecidableEq, Repr

/-- The call `logger.WithFields(fields).Info(msg)`. -/
abbrev Logger (W : Type) := LogFields → String → W → W

/-- The call `requestCount.With(lvs...).Add(delta)`. -/
abbrev Counter (W : Type) := List String → Nat → W → W

/-- The call `requestLatency.With(lvs...).Observe(d.Seconds())`; the model hands
over the duration `d` itself, in nanoseconds. -/
abbrev Histogram (W : Type) := List String → Int → W → W

/-- The method `Duration.Milliseconds`. -/
def Milliseconds (d : Int) : Int := Int.tdiv d 1000000

/-- The call `fmt.Sprint(b)` for a boolean. -/
def SprintBool (b : Bool) : String := if b then "true" else "false"

/-- The deferred function of a logging method: one record with the elapsed
time and the error, under the message naming the method. -/
def logCall {W : Type} (logger : Logger W) (now : W → Int) (method : String)
    (begin : Int) (err : Option GoError) (w : W) : W :=
  logger { took := Milliseconds (now w - begin), error := err } ("method == " ++ method) w

/-- The deferred function of an instrumenting method: the label values, then
the counter, then the histogram. -/
def instrumentCall {W : Type} (requestCount : Counter W) (requestLatency : Histogram W)
    (now : W → Int) (method : String) (begin : Int) (err : Option GoError) (w : W) : W :=
  let lvs := ["method", method, "error", SprintBool err.isSome]
  let w := requestCount lvs 1 w
  requestLatency lvs (now w - begin) w

/-- The function `LoggingMiddleware` with the four methods of
`loggingMiddleware` (middleware.go, lines 19-66). -/
def LoggingMiddleware {W : Type} (logger : Logger W) (now : W → Int) (next : Service W) :
    Service W where
  GetSubjects := fun w =>
    let begin := now w
    let ((subjects, err), w) := next.GetSubjects w
    ((subjects, err), logCall logger now "GetSubjects" begin err w)
  AddSubject := fun subjectAdd w =>
    let begin := now w
    let (err, w) := next.AddSubject subjectAdd w
    (err, logCall logger now "AddSubject" begin err w)
  UpdateSubject := fun subject w =>
    let begin := now w
    let (err, w) := next.UpdateSubject subject w
    (err, logCall logger now "UpdateSubject" begin err w)
  DeleteSubject := fun id w =>
    let begin := now w
    let (err, w) := next.DeleteSubject id w
    (err, logCall logger now "DeleteSubject" begin err w)

/-- The function `InstrumentingMiddleware` with the four methods of
`instrumentingMiddleware` (middleware.go, lines 75-123). -/
def InstrumentingMiddleware {W : Type} (requestCount : Counter W)
    (requestLatency : Histogram W) (now : W → Int) (next : Service W) : Service W where
  GetSubjects := fun w =>
    let begin := now w
    let ((subjects, err), w) := next.GetSubjects w
    ((subjects, err), instrumentCall requestCount requestLatency now "getSubjects" begin err w)
  AddSubject := fun subjectAdd w =>
    let begin := now w
    let (err, w) := next.AddSubject subjectAdd w
    (err, instrumentCall requestCount requestLatency now "addSubject" begin err w)
  UpdateSubject := fun subject w =>
    let begin := now w
    let (err, w) := next.UpdateSubject subject w
    (err, instrumentCall requestCount requestLatency now "updateSubject" begin err w)
  DeleteSubject := fun id w =>
    let begin := now w
    let (err, w) := next.DeleteSubject id w
    (err, instrumentCall requestCount requestLatency now "deleteSubject" begin err w)

/-- The function `NewService` (service.go, lines 31-39). -/
def NewService {W : Type} (logger : Logger W) (requestCount : Counter W)
    (requestLatency : Histogram W) (env : ServiceEnv W) : Service W :=
  let svc := NewBasicService env
  let svc := LoggingMiddleware logger env.now svc
  InstrumentingMiddleware requestCount requestLatency env.now svc

/-- A request for one of the four methods of a Service, with its arguments. -/
inductive Call where
  | GetSubjects
  | AddSubject (subjectAdd : Subject)
  | UpdateSubject (subject : Subject)
  | DeleteSubject (id : Int)
deriving DecidableEq, Repr

/-- Make the call `c` on the service: the subjects (none for the three writing
methods) and the error it returns, with the state after the call. -/
def Service.call {W : Type} (svc : Service W) : Call → W → (List Subject × Option GoError) × W
  | .GetSubjects, w => svc.GetSubjects w
  | .AddSubject subjectAdd, w => (([], (svc.AddSubject subjectAdd w).1), (svc.AddSubject subjectAdd w).2)
  | .UpdateSubject subject, w => (([], (svc.UpdateSubject subject w).1), (svc.UpdateSubject subject w).2)
  | .DeleteSubject id, w => (([], (svc.DeleteSubject id w).1), (svc.DeleteSubject id w).2)

/-- The method name a logging method writes into its message. -/
def Call.logName : Call → String
  | .GetSubjects => "GetSubjects"
  | .AddSubject _ => "AddSubject"
  | .UpdateSubject _ => "UpdateSubject"
  | .DeleteSubject _ => "DeleteSubject"

/-- The method name an instrumenting method writes into its label values. -/
def Call.metricName : Call → String
  | .GetSubjects => "getSubjects"
  | .AddSubject _ => "addSubject"
  | .UpdateSubject _ => "updateSubject"
  | .DeleteSubject _ => "deleteSubject"

/-- The service `s` with a tally beside its state: every call of a method of
`s` adds one to the tally. -/
def counted {W : Type} (s : Service W) : Service (W × Nat) where
  GetSubjects := fun p => ((s.GetSubjects p.1).1, ((s.GetSubjects p.1).2, p.2 + 1))
  AddSubject := fun subjectAdd p =>
    ((s.AddSubject subjectAdd p.1).1, ((s.AddSubject subjectAdd p.1).2, p.2 + 1))
  UpdateSubject := fun subject p =>
    ((s.UpdateSubject subject p.1).1, ((s.UpdateSubject subject p.1).2, p.2 + 1))
  DeleteSubject := fun id p =>
    ((s.DeleteSubject id p.1).1, ((s.DeleteSubject id p.1).2, p.2 + 1))

/-- A change of the state that leaves the tally beside it alone. -/
def besideTally {W : Type} (f : W → W) : W × Nat → W × Nat :=
  fun p => (f p.1, p.2)

/-- What a logger, a counter and a histogram are seen to receive. -/
inductive Event where
  | log (fields : LogFields) (msg : String)
  | counterAdd (lvs : List String) (delta : Nat)
  | observe (lvs : List String) (d : Int)
deriving DecidableEq, Repr

/-- A logger that appends each record to the list of events. -/
def recordLog {S : Type} : Logger (S × List Event) :=
  fun fields msg p => (p.1, p.2 ++ [.log fields msg])

/-- A counter that appends each increment to the list of events. -/
def recordCount {S : Type} : Counter (S × List Event) :=
  fun lvs delta p => (p.1, p.2 ++ [.counterAdd lvs delta])

/-- A histogram that appends each observation to the list of events. -/
def recordObserve {S : Type} : Histogram (S × List Event) :=
  fun lvs d p => (p.1, p.2 ++ [.observe lvs d])

/-- A call made on the driver, with the error it returned. -/
inductive DbCall where
  | Connect (info : String) (err : Option GoError)
  | Close
  | Query (sql : String) (err : Option GoError)
  | BeginTx (err : Option GoError)
  | Exec (sql : String) (args : List SqlArg) (err : Option GoError)
  | TxExec (sql : String) (args : List SqlArg) (err : Option GoError)
  | Commit (err : Option GoError)
  | Rollback (err : Option GoError)
deriving DecidableEq, Repr

/-- The error of a query result, if any. -/
def queryError {α : Type} : Except GoError α → Option GoError
  | .error e => some e
  | .ok _ => none

/-- The driver `db` with a journal beside its state: every call is appended to
the journal with the error the driver returned. -/
def traced {W : Type} (db : Pgx W) : Pgx (W × List DbCall) where
  Connect := fun info p =>
    ((db.Connect info p.1).1, ((db.Connect info p.1).2, p.2 ++ [.Connect info (db.Connect info p.1).1]))
  Close := fun p => (db.Close p.1, p.2 ++ [.Close])
  Query := fun sql p =>
    ((db.Query sql p.1).1, ((db.Query sql p.1).2, p.2 ++ [.Query sql (queryError (db.Query sql p.1).1)]))
  BeginTx := fun p => ((db.BeginTx p.1).1, ((db.BeginTx p.1).2, p.2 ++ [.BeginTx (db.BeginTx p.1).1]))
  Exec := fun sql args p =>
    ((db.Exec sql args p.1).1,
      ((db.Exec sql args p.1).2, p.2 ++ [.Exec sql args (db.Exec sql args p.1).1]))
  TxExec := fun sql args p =>
    ((db.TxExec sql args p.1).1,
      ((db.TxExec sql args p.1).2, p.2 ++ [.TxExec sql args (db.TxExec sql args p.1).1]))
  Commit := fun p => ((db.Commit p.1).1, ((db.Commit p.1).2, p.2 ++ [.Commit (db.Commit p.1).1]))
  Rollback := fun p =>
    ((db.Rollback p.1).1, ((db.Rollback p.1).2, p.2 ++ [.Rollback (db.Rollback p.1).1]))

/-- The surroundings `env` with the journal of driver calls beside the state. -/
def tracedEnv {W : Type} (env : ServiceEnv W) : ServiceEnv (W × List DbCall) where
  db := traced env.db
  now := fun p => env.now p.1
  GetEnv := env.GetEnv
  GetEnvAsInt := env.GetEnvAsInt
  jsonUnmarshal := env.jsonUnmarshal

/-! ## internal/transport.go: accessControl and the route table -/

/-- An `http.Handler`: it writes to the response writer and acts on the state
of the world.  The result `none` is a panic. -/
abbrev Handler (W : Type) := HTTPRequest → ResponseWriter → W → Option (ResponseWriter × W)

/-- The function `accessControl` (transport.go, lines 27-43). -/
def accessControl {W : Type} (h : Handler W) : Handler W :=
  fun r w st =>
    let origin := HeaderGet r.Header "Origin"
    let w :=
      if origin ≠ "" then w.HeaderSet "Access-Control-Allow-Origin" origin
      else w.HeaderSet "Access-Control-Allow-Origin" "*"
    let w := w.HeaderSet "Access-Control-Allow-Methods" "POST, GET, OPTIONS, PUT, DELETE"
    let w := w.HeaderSet "Access-Control-Allow-Headers"
      "Authorization, Origin, Accept, Content-Type, Content-Length, Accept-Encoding"
    if r.Method = "OPTIONS" then some (w, st)
    else h r w st

/-- A route of the mux router: `r.Methods(...).Path(...).Handler(...)`. -/
structure Route (W : Type) where
  Methods : List String
  Path : String
  Handler : Handler W

/-- The function `MakeHTTPHandler` (transport.go, lines 45-84): the routes of
the router in the order of their registration.  The last argument is
`promhttp.Handler()`. -/
def MakeHTTPHandler {W : Type} (s : Service W) (rt : Runtime) (logger : GoError → W → W)
    (metricsHandler : Handler W) : List (Route W) :=
  [⟨["OPTIONS", "GET"], "/subjects", accessControl (getSubjectsServer s rt logger)⟩,
   ⟨["OPTIONS", "POST"], "/subject", accessControl (postSubjectServer s rt logger)⟩,
   ⟨["OPTIONS", "PUT"], "/subject", accessControl (putSubjectServer s rt logger)⟩,
   ⟨["OPTIONS", "DELETE"], "/subject/{id}", accessControl (deleteSubjectServer s rt logger)⟩,
   ⟨["GET"], "/metrics", metricsHandler⟩]

/-! ## The mux router -/

/-- A piece of a path template: a character to find as it is, or a variable. -/
inductive Piece where
  | lit (c : Char)
  | var (name : String)
deriving DecidableEq, Repr

/-- Read a path template: the text between an opening and a closing brace is
the name of a variable.  The second argument holds the name being read. -/
def parseTemplate : List Char → Option (List Char) → List Piece
  | [], _ => []
  | c :: cs, none =>
    if c = '\x7b' then parseTemplate cs (some [])
    else .lit c :: parseTemplate cs none
  | c :: cs, some name =>
    if c = '\x7d' then .var (String.mk name.reverse) :: parseTemplate cs none
    else parseTemplate cs (some (c :: name))

/-- Match a path against the pieces of a template, from its first character to
its last: a variable takes one or more characters up to the next slash. -/
def matchPieces : List Piece → List Char → Option (List (String × String))
  | [], [] => some []
  | [], _ :: _ => none
  | .lit _ :: _, [] => none
  | .lit c :: ps, d :: path => if c = d then matchPieces ps path else none
  | .var name :: ps, path =>
    let segment := path.takeWhile (fun c => c != '/')
    if segment = [] then none
    else
      match matchPieces ps (path.dropWhile (fun c => c != '/')) with
      | none => none
      | some vars => some ((name, String.mk segment) :: vars)

/-- The path matcher of a route: the variables of the template when the path
matches it. -/
def matchPath (template path : String) : Option (List (String × String)) :=
  matchPieces (parseTemplate template.data none) path.data

/-- The request as the router receives it.  `Path` is the URL path in the
clean form the router matches routes against; the router fills the route
variables. -/
structure ServerRequest where
  Method : String
  Path : String
  Header : List (String × String)
  Body : String
deriving DecidableEq, Repr

/-- The route the router picks: the first one, in the order of registration,
whose path and whose methods both match, with the variables of its path. -/
def routerMatch {W : Type} : List (Route W) → ServerRequest →
    Option (Route W × List (String × String))
  | [], _ => none
  | route :: rest, req =>
    match matchPath route.Path req.Path with
    | none => routerMatch rest req
    | some vars =>
      if req.Method ∈ route.Methods then some (route, vars)
      else routerMatch rest req

/-- What the router does with a request: it runs the handler of the route it
picked, or answers 405 when some route matches the path and none of those
matches the method, or answers 404 when no route matches the path. -/
inductive Served (W : Type) where
  | handled (out : Option (ResponseWriter × W))
  | methodNotAllowed
  | notFound

/-- The method `ServeHTTP` of the mux router over the given routes. -/
def routerServeHTTP {W : Type} (routes : List (Route W)) (req : ServerRequest)
    (w : ResponseWriter) (st : W) : Served W :=
  match routerMatch routes req with
  | some (route, vars) => .handled (route.Handler ⟨req.Method, req.Header, req.Body, vars⟩ w st)
  | none =>
    if routes.any (fun route => (matchPath route.Path req.Path).isSome) then .methodNotAllowed
    else .notFound

def StatusMethodNotAllowed : Nat := 405

/-- The status the server sends for a writer once the handler has returned:
the one written, or 200 when the handler wrote none. -/
def ResponseWriter.sentStatus (w : ResponseWriter) : Nat :=
  w.status.getD StatusOK

/-- The status of the response the router gives, when no handler panicked. -/
def Served.status {W : Type} : Served W → Option Nat
  | .handled (some (w, _)) => some w.sentStatus
  | .handled none => none
  | .methodNotAllowed => some StatusMethodNotAllowed
  | .notFound => some StatusNotFound

/-- The writer after accessControl has set its three headers on a writer
nothing was written to, for a request with the given Origin header. -/
def corsWriter (origin : String) : ResponseWriter :=
  ⟨[("Access-Control-Allow-Headers",
      "Authorization, Origin, Accept, Content-Type, Content-Length, Accept-Encoding"),
    ("Access-Control-Allow-Methods", "POST, GET, OPTIONS, PUT, DELETE"),
    ("Access-Control-Allow-Origin", if origin ≠ "" then origin else "*")], none, []⟩

/-! ## Worked inputs -/

/-- A token signed with the shared secret; its payload is the given claims. -/
def signedToken (claims : List (String × ClaimValue)) : Token :=
  { Method := .HMAC "HS256", Claims := .MapClaims claims, Valid := true }

/-- The credentials the worked runtime knows, with the token each parses to. -/
def knownTokens : List (String × Token) :=
  [("admin.jwt", signedToken [("username", .str "root"), ("role", .str "Administrator")]),
   ("user.jwt", signedToken [("username", .str "ann"), ("role", .str "user")]),
   ("role-only.jwt", signedToken [("role", .str "user")])]

/-- The JSON documents the worked runtime knows, with the Subject each decodes
to. -/
def knownSubjects : List (String × Subject) :=
  [("engineering.json", ⟨0, "", "", "", "", "Engineering", "department", 0⟩),
   ("sales.json", ⟨7, "", "2024-01-01", "", "2024-01-01", "Sales", "department", 0⟩)]

/-- The value of a run of decimal digits read after `acc`. -/
def decimalDigits : List Char → Nat → Option Nat
  | [], acc => some acc
  | c :: cs, acc =>
    if c.isDigit then decimalDigits cs (acc * 10 + (c.toNat - 48)) else none

/-- A decimal integer: an optional sign and at least one digit. -/
def decimalInt : List Char → Option Int
  | [] => none
  | '-' :: c :: cs => (decimalDigits (c :: cs) 0).map (fun n => -(n : Int))
  | '+' :: c :: cs => (decimalDigits (c :: cs) 0).map (fun n => (n : Int))
  | c :: cs => (decimalDigits (c :: cs) 0).map (fun n => (n : Int))

/-- A runtime for worked inputs: `jwt.Parse` accepts the known credentials and
asks the key function for the key, `ToLower` lowers the letters A to Z, the
JSON decoder accepts the known documents, `Atoi` reads a decimal integer of 64
bits, the environment is empty. -/
def workedRuntime : Runtime where
  jwtParse := fun tokenString kf =>
    match knownTokens.lookup tokenString with
    | none => .error (.plain "token contains an invalid number of segments")
    | some token =>
      match kf token.Method with
      | .error e => .error e
      | .ok _ => .ok token
  ToLower := fun s => String.mk (s.data.map Char.toLower)
  jsonDecode := fun body =>
    match knownSubjects.lookup body with
    | none => .error (.plain "invalid character")
    | some subject => .ok subject
  Atoi := fun s =>
    match decimalInt s.data with
    | none => .error (.plain "strconv.Atoi: invalid syntax")
    | some n =>
      if -9223372036854775808 ≤ n ∧ n ≤ 9223372036854775807 then .ok n
      else .error (.plain "strconv.Atoi: value out of range")
  GetEnv := fun _ defaultValue => defaultValue

/-- The outcome of each driver call in a scripted run. -/
structure Script where
  connect : Option GoError
  query : Except GoError Rows
  beginTx : Option GoError
  exec : Option GoError
  commit : Option GoError
  rollback : Option GoError

/-- A script in which every driver call succeeds and the table is empty. -/
def Script.allOk : Script := ⟨none, .ok ⟨[], none⟩, none, none, none, none⟩

/-- A driver without state that answers every call as the script says. -/
def scriptedPgx (sc : Script) : Pgx Unit where
  Connect := fun _ w => (sc.connect, w)
  Close := fun w => w
  Query := fun _ w => (sc.query, w)
  BeginTx := fun w => (sc.beginTx, w)
  Exec := fun _ _ w => (sc.exec, w)
  TxExec := fun _ _ w => (sc.exec, w)
  Commit := fun w => (sc.commit, w)
  Rollback := fun w => (sc.rollback, w)

/-- The surroundings of the base service over a scripted driver: the clock
stands at 0, the environment is empty, `json.Unmarshal` is the decoder of the
worked runtime. -/
def scriptedEnv (sc : Script) : ServiceEnv Unit where
  db := scriptedPgx sc
  now := fun _ => 0
  GetEnv := fun _ defaultValue => defaultValue
  GetEnvAsInt := fun _ defaultValue => defaultValue
  jsonUnmarshal := workedRuntime.jsonDecode

/-- A script whose connection attempt is refused. -/
def Script.refused : Script :=
  { Script.allOk with connect := some (.plain "connection refused") }

/-- A script whose query gives two rows: the first scans and parses, the scan
of the second fails. -/
def Script.secondRowFails : Script :=
  { Script.allOk with
    query := .ok ⟨[.ok "sales.json", .error (.plain "cannot scan into dest")], none⟩ }

/-- A script whose query delivers one row and then fails during its execution:
the stream of rows ends and `rows.Err()` holds the error. -/
def Script.streamBreaks : Script :=
  { Script.allOk with query := .ok ⟨[.ok "sales.json"], some (.plain "unexpected EOF")⟩ }

/-- A request without an Authorization header, with a body and a route
variable. -/
def anonymousRequest : HTTPRequest :=
  ⟨"GET", [("Accept", "application/json")], "sales.json", [("id", "7")]⟩

/-- A request with the token of an administrator. -/
def adminRequest (method body : String) : HTTPRequest :=
  ⟨method, [("Authorization", "Bearer admin.jwt")], body, [("id", "7")]⟩

/-- A service over a tally: every method adds one to it and succeeds. -/
def tallyService : Service Nat where
  GetSubjects := fun n => (([], none), n + 1)
  AddSubject := fun _ n => (none, n + 1)
  UpdateSubject := fun _ n => (none, n + 1)
  DeleteSubject := fun _ n => (none, n + 1)

/-- A table in memory: each row holds the values bound to the listed columns
of the insert statement, in their order. -/
structure MemStore where
  rows : List (List SqlArg)
  pending : List (List SqlArg)
deriving DecidableEq, Repr

/-- The number of placeholders of a statement in which every placeholder
occurs once. -/
def placeholders (sql : String) : Nat :=
  (sql.data.filter (fun c => c == '$')).length

/-- The error `Exec` of pgx returns for a statement whose argument count differs
from its placeholder count. -/
def argumentCountError (_sql : String) (_args : List SqlArg) : GoError :=
  .plain "mismatched param and argument count"

/-- A driver over the table in memory.  Connecting and opening a transaction
succeed.  A statement whose argument count differs from its placeholder count
is rejected; an accepted insert binds its k-th argument to its k-th placeholder
and listed column, and its row joins the table at Commit and is dropped at
Rollback.  A query gives every row of the table, rendered by `toJSON`.
Statements run outside a transaction are checked and change no row. -/
def memPgx (toJSON : List SqlArg → String) : Pgx MemStore where
  Connect := fun _ st => (none, st)
  Close := fun st => st
  Query := fun _ st => (.ok ⟨st.rows.map (fun row => .ok (toJSON row)), none⟩, st)
  BeginTx := fun st => (none, { st with pending := [] })
  Exec := fun sql args st =>
    if args.length ≠ placeholders sql then (some (argumentCountError sql args), st)
    else (none, st)
  TxExec := fun sql args st =>
    if args.length ≠ placeholders sql then (some (argumentCountError sql args), st)
    else (none, { st with pending := st.pending ++ [args] })
  Commit := fun st => (none, { rows := st.rows ++ st.pending, pending := [] })
  Rollback := fun st => (none, { st with pending := [] })

/-- The surroundings of the base service over the table in memory. -/
def memEnv (toJSON : List SqlArg → String) (jsonUnmarshal : String → Except GoError Subject) :
    ServiceEnv MemStore where
  db := memPgx toJSON
  now := fun _ => 0
  GetEnv := fun _ defaultValue => defaultValue
  GetEnvAsInt := fun _ defaultValue => defaultValue
  jsonUnmarshal := jsonUnmarshal

/-- A metrics handler for worked inputs: it answers 200 and adds one to the
tally. -/
def tallyMetricsHandler : Handler Nat :=
  fun _ w n => some (w.WriteHeader StatusOK, n + 1)

/-! ## Theorems -/

/-- C4, as stated, fails: an error can be two of the package's errors at once.
The error `fmt.Errorf("%w / %w", ErrForbidden, ErrNotFound)` is ErrForbidden and
codeFrom gives 404 for it, not 403; an error that is ErrPreconditionRequired
and ErrAlreadyExists gets 400, not 428. -/
theorem codeFrom_two_sentinels_counterexample :
    errorsIs (.joined "role is not administrator / not found" ErrForbidden ErrNotFound)
      .Forbidden = true ∧
    codeFrom (.joined "role is not administrator / not found" ErrForbidden ErrNotFound)
      = 404 ∧
    errorsIs (.joined "header get authorization\nthis row is already exists"
      ErrPreconditionRequired ErrAlreadyExists) .PreconditionRequired = true ∧
    codeFrom (.joined "header get authorization\nthis row is already exists"
      ErrPreconditionRequired ErrAlreadyExists) = 400 := by
  decide

/-- C4, amended: `codeFrom` is the fixed table read from its first row to its
last.  For every error, whatever it wraps: 404 when it is ErrNotFound;
otherwise 400 when it is ErrAlreadyExists or ErrInconsistentIDs; otherwise 403
when it is ErrForbidden; otherwise 428 when it is ErrPreconditionRequired;
otherwise 500, as for ErrBadRouting. -/
theorem codeFrom_table_in_order (err : GoError) :
    (errorsIs err .NotFound = true → codeFrom err = 404) ∧
    (errorsIs err .NotFound = false →
      errorsIs err .AlreadyExists = true ∨ errorsIs err .InconsistentIDs = true →
      codeFrom err = 400) ∧
    (errorsIs err .NotFound = false → errorsIs err .AlreadyExists = false →
      errorsIs err .InconsistentIDs = false → errorsIs err .Forbidden = true →
      codeFrom err = 403) ∧
    (errorsIs err .NotFound = false → errorsIs err .AlreadyExists = false →
      errorsIs err .InconsistentIDs = false → errorsIs err .Forbidden = false →
      errorsIs err .PreconditionRequired = true → codeFrom err = 428) ∧
    (errorsIs err .NotFound = false → errorsIs err .AlreadyExists = false →
      errorsIs err .InconsistentIDs = false → errorsIs err .Forbidden = false →
      errorsIs err .PreconditionRequired = false → codeFrom err = 500) ∧
    codeFrom ErrBadRouting = 500 := by
  refine ⟨?_, ?_, ?_, ?_, ?_, by decide⟩
  · intro h
    simp [codeFrom, h, StatusNotFound]
  · intro h1 h
    rcases h with h | h <;> simp [codeFrom, h, h1, StatusBadRequest]
  · intro h1 h2 h3 h
    simp [codeFrom, h, h1, h2, h3, StatusForbidden]
  · intro h1 h2 h3 h4 h
    simp [codeFrom, h, h1, h2, h3, h4, StatusPreconditionRequired]
  · intro h1 h2 h3 h4 h5
    simp [codeFrom, h1, h2, h3, h4, h5, StatusInternalServerError]

/-- C4 amended, at worked inputs: an error that is ErrForbidden and ErrNotFound,
a wrapped ErrInconsistentIDs, ErrForbidden, an error that is
ErrPreconditionRequired and ErrBadRouting, an error whose method `Is` answers
for ErrPreconditionRequired, and a driver error. -/
theorem codeFrom_table_in_order_witness :
    codeFrom (.joined "role is not administrator / not found" ErrForbidden ErrNotFound)
      = 404 ∧
    codeFrom (.wrapped "update" (.wrapped "check" ErrInconsistentIDs)) = 400 ∧
    codeFrom ErrForbidden = 403 ∧
    codeFrom (.joined "auth" ErrPreconditionRequired ErrBadRouting) = 428 ∧
    codeFrom (.matching "no credentials" [.PreconditionRequired]) = 428 ∧
    codeFrom (.plain "connection refused") = 500 :=
  ⟨(codeFrom_table_in_order _).1 (by decide),
   (codeFrom_table_in_order _).2.1 (by decide) (Or.inr (by decide)),
   (codeFrom_table_in_order _).2.2.1 (by decide) (by decide) (by decide) (by decide),
   (codeFrom_table_in_order _).2.2.2.1 (by decide) (by decide) (by decide) (by decide)
     (by decide),
   (codeFrom_table_in_order _).2.2.2.1 (by decide) (by decide) (by decide) (by decide)
     (by decide),
   (codeFrom_table_in_order _).2.2.2.2.1 (by decide) (by decide) (by decide) (by decide)
     (by decide)⟩

theorem getPermissionParams_ok (rt : Runtime) (r : HTTPRequest) (scheme credential : String)
    (token : Token) (claims : List (String × ClaimValue)) (user role : String)
    (hsplit : stringsSplit (HeaderGet r.Header "Authorization") = [scheme, credential])
    (hparse : rt.jwtParse credential (keyFunc rt) = .ok token)
    (hclaims : token.Claims = .MapClaims claims) (hvalid : token.Valid = true)
    (huser : claimString claims "username" = some user)
    (hrole : claimString claims "role" = some role) :
    getPermissionParams rt r = .ok (user, role) := by
  simp [getPermissionParams, hsplit, extractTokenMetadata, hparse, hclaims, hvalid, huser, hrole]

/-- C1, as stated, fails: a request whose token is signed with the shared
secret and carries the role claim "user" and no username claim is answered by
each gated decoder with ErrPreconditionRequired, which codeFrom maps to 428,
not with ErrForbidden. -/
theorem role_gate_counterexample :
    workedRuntime.jwtParse "role-only.jwt" (keyFunc workedRuntime)
      = .ok (signedToken [("role", .str "user")]) ∧
    claimString [("role", .str "user")] "role" = some "user" ∧
    workedRuntime.ToLower "user" ≠ "administrator" ∧
    decodeGetSubjectsRequest workedRuntime
      ⟨"GET", [("Authorization", "Bearer role-only.jwt")], "", []⟩
      = .error ErrPreconditionRequired ∧
    decodePutSubjectRequest workedRuntime
      ⟨"PUT", [("Authorization", "Bearer role-only.jwt")], "sales.json", []⟩
      = .error ErrPreconditionRequired ∧
    decodeDeleteSubjectRequest workedRuntime
      ⟨"DELETE", [("Authorization", "Bearer role-only.jwt")], "", [("id", "7")]⟩
      = .error ErrPreconditionRequired ∧
    ErrPreconditionRequired ≠ ErrForbidden ∧
    codeFrom ErrPreconditionRequired = 428 := by
  refine ⟨rfl, rfl, by decide, rfl, rfl, rfl, by decide, by decide⟩

/-- C1, amended: for every request to a role-gated route whose Authorization
header splits into exactly two parts, whose credential `jwt.Parse` accepts as a
valid token with map claims, and whose username and role claims are both
strings, the role not being "administrator" after `strings.ToLower`, each of
the three gated decoders returns ErrForbidden, which codeFrom maps to 403,
whatever the body and the route variables are. -/
theorem role_gate_forbidden (rt : Runtime) (r : HTTPRequest) (scheme credential : String)
    (token : Token) (claims : List (String × ClaimValue)) (user role : String)
    (hsplit : stringsSplit (HeaderGet r.Header "Authorization") = [scheme, credential])
    (hparse : rt.jwtParse credential (keyFunc rt) = .ok token)
    (hclaims : token.Claims = .MapClaims claims) (hvalid : token.Valid = true)
    (huser : claimString claims "username" = some user)
    (hrole : claimString claims "role" = some role)
    (hne : rt.ToLower role ≠ "administrator") :
    decodeGetSubjectsRequest rt r = .error ErrForbidden ∧
    decodePutSubjectRequest rt r = .error ErrForbidden ∧
    decodeDeleteSubjectRequest rt r = .error ErrForbidden ∧
    codeFrom ErrForbidden = 403 := by
  have hp := getPermissionParams_ok rt r scheme credential token claims user role
    hsplit hparse hclaims hvalid huser hrole
  refine ⟨?_, ?_, ?_, by decide⟩
  · simp [decodeGetSubjectsRequest, hp, hne]
  · simp [decodePutSubjectRequest, hp, hne]
  · simp [decodeDeleteSubjectRequest, hp, hne]

/-- C1 amended, at a worked input: the token of user ann with role "user",
sent with a body that does not decode and no route variable. -/
theorem role_gate_forbidden_witness :
    decodeGetSubjectsRequest workedRuntime
      ⟨"GET", [("Authorization", "Bearer user.jwt")], "not json", []⟩ = .error ErrForbidden ∧
    decodePutSubjectRequest workedRuntime
      ⟨"GET", [("Authorization", "Bearer user.jwt")], "not json", []⟩ = .error ErrForbidden ∧
    decodeDeleteSubjectRequest workedRuntime
      ⟨"GET", [("Authorization", "Bearer user.jwt")], "not json", []⟩ = .error ErrForbidden ∧
    codeFrom ErrForbidden = 403 :=
  role_gate_forbidden workedRuntime ⟨"GET", [("Authorization", "Bearer user.jwt")], "not json", []⟩
    "Bearer" "user.jwt" (signedToken [("username", .str "ann"), ("role", .str "user")])
    [("username", .str "ann"), ("role", .str "user")] "ann" "user"
    (by decide) rfl rfl rfl rfl rfl (by decide)

theorem getPermissionParams_bad_header (rt : Runtime) (r : HTTPRequest)
    (h : (stringsSplit (HeaderGet r.Header "Authorization")).length ≠ 2) :
    getPermissionParams rt r = .error ErrPreconditionRequired := by
  unfold getPermissionParams
  split
  · next a b heq => simp [heq] at h
  · rfl

theorem stringsSplit_absent (r : HTTPRequest) (h : r.Header.lookup "Authorization" = none) :
    (stringsSplit (HeaderGet r.Header "Authorization")).length ≠ 2 := by
  simp [HeaderGet, h, stringsSplit, splitChars]

/-- C2: for every request whose Authorization header is absent, or does not
split on the space character into exactly two parts, each gated decoder returns
ErrPreconditionRequired whatever the body and the route variables are; the
server of each gated route then writes the error body with status 428 and hands
the error to the error handler, and the state of the world is otherwise the one
before the request for every Service: no endpoint and no Service method runs. -/
theorem bad_authorization_header {W : Type} (rt : Runtime) (r : HTTPRequest)
    (s : Service W) (logger : GoError → W → W) (w : ResponseWriter) (st : W)
    (h : r.Header.lookup "Authorization" = none ∨
      (stringsSplit (HeaderGet r.Header "Authorization")).length ≠ 2) :
    decodeGetSubjectsRequest rt r = .error ErrPreconditionRequired ∧
    decodePutSubjectRequest rt r = .error ErrPreconditionRequired ∧
    decodeDeleteSubjectRequest rt r = .error ErrPreconditionRequired ∧
    codeFrom ErrPreconditionRequired = 428 ∧
    getSubjectsServer s rt logger r w st
      = some (encodeError ErrPreconditionRequired w, logger ErrPreconditionRequired st) ∧
    putSubjectServer s rt logger r w st
      = some (encodeError ErrPreconditionRequired w, logger ErrPreconditionRequired st) ∧
    deleteSubjectServer s rt logger r w st
      = some (encodeError ErrPreconditionRequired w, logger ErrPreconditionRequired st) ∧
    (encodeError ErrPreconditionRequired ResponseWriter.fresh).status = some 428 ∧
    (encodeError ErrPreconditionRequired ResponseWriter.fresh).body
      = [.errorObject "header get authorization"] := by
  have hlen : (stringsSplit (HeaderGet r.Header "Authorization")).length ≠ 2 := by
    rcases h with h | h
    · exact stringsSplit_absent r h
    · exact h
  have hp := getPermissionParams_bad_header rt r hlen
  have hg : decodeGetSubjectsRequest rt r = .error ErrPreconditionRequired := by
    simp [decodeGetSubjectsRequest, hp]
  have hu : decodePutSubjectRequest rt r = .error ErrPreconditionRequired := by
    simp [decodePutSubjectRequest, hp]
  have hd : decodeDeleteSubjectRequest rt r = .error ErrPreconditionRequired := by
    simp [decodeDeleteSubjectRequest, hp]
  refine ⟨hg, hu, hd, by decide, ?_, ?_, ?_, by decide, by decide⟩
  · simp [getSubjectsServer, ServeHTTP, hg]
  · simp [putSubjectServer, ServeHTTP, hu]
  · simp [deleteSubjectServer, ServeHTTP, hd]

/-- C2 at a worked input: a request without an Authorization header, sent to
a service that counts its calls, leaves the tally at 0. -/
theorem bad_authorization_header_witness :
    anonymousRequest.Header.lookup "Authorization" = none ∧
    decodeDeleteSubjectRequest workedRuntime anonymousRequest = .error ErrPreconditionRequired ∧
    getSubjectsServer tallyService workedRuntime (fun _ st => st) anonymousRequest
      ResponseWriter.fresh 0
      = some (encodeError ErrPreconditionRequired ResponseWriter.fresh, 0) :=
  ⟨rfl,
   (bad_authorization_header workedRuntime anonymousRequest tallyService (fun _ st => st)
      ResponseWriter.fresh 0 (Or.inl rfl)).2.2.1,
   (bad_authorization_header workedRuntime anonymousRequest tallyService (fun _ st => st)
      ResponseWriter.fresh 0 (Or.inl rfl)).2.2.2.2.1⟩

/-- C3, on the code: encodeResponse never takes its error branch, because no
response struct has the method `error()`; every response is written with
status 200 and the response struct as body.  With a refused database
connection each of the four routes answers 200 with the failed response as
body, not 500 with an error body. -/
theorem service_error_answered_ok :
    (∀ response : Response,
      (encodeResponse ResponseWriter.fresh response).1.status = some 200 ∧
      (encodeResponse ResponseWriter.fresh response).1.body = [.response response]) ∧
    ((NewBasicService (scriptedEnv Script.refused)).AddSubject
        ⟨0, "", "", "", "", "Engineering", "department", 0⟩ ()).1
      = some (.plain "AddSubject. Unable to connect to database: connection refused\n") ∧
    postSubjectServer (NewBasicService (scriptedEnv Script.refused)) workedRuntime
        (fun _ st => st) ⟨"POST", [], "engineering.json", []⟩ ResponseWriter.fresh ()
      = some (⟨[("Content-Type", "application/json; charset=utf-8")], some 200,
          [.response (.postSubjectResponse (some (.plain
            "AddSubject. Unable to connect to database: connection refused\n")))]⟩, ()) ∧
    getSubjectsServer (NewBasicService (scriptedEnv Script.refused)) workedRuntime
        (fun _ st => st) (adminRequest "GET" "") ResponseWriter.fresh ()
      = some (⟨[("Content-Type", "application/json; charset=utf-8")], some 200,
          [.response (.getSubjectsResponse [] (some (.plain
            "GetSubjects. Unable to connect to database: connection refused\n")))]⟩, ()) ∧
    putSubjectServer (NewBasicService (scriptedEnv Script.refused)) workedRuntime
        (fun _ st => st) (adminRequest "PUT" "sales.json") ResponseWriter.fresh ()
      = some (⟨[("Content-Type", "application/json; charset=utf-8")], some 200,
          [.response (.putSubjectResponse (some (.plain
            "UpdateSubject. Unable to connect to database: connection refused\n")))]⟩, ()) ∧
    deleteSubjectServer (NewBasicService (scriptedEnv Script.refused)) workedRuntime
        (fun _ st => st) (adminRequest "DELETE" "") ResponseWriter.fresh ()
      = some (⟨[("Content-Type", "application/json; charset=utf-8")], some 200,
          [.response (.deleteSubjectResponse (some (.plain
            "DeleteSubject. Unable to connect to database: connection refused\n")))]⟩, ()) := by
  refine ⟨?_, by decide, ?_, ?_, ?_, ?_⟩
  · intro response
    cases response <;> exact ⟨rfl, rfl⟩
  · decide
  · decide
  · decide
  · decide

/-- C5: decodePostSubjectRequest reads only the body.  Two requests with the
same body get the same result whatever their headers are, and when the body
decodes as a Subject the result is the postSubjectRequest holding it. -/
theorem post_decoder_reads_body_only (rt : Runtime) (r₁ r₂ : HTTPRequest)
    (hbody : r₁.Body = r₂.Body) :
    decodePostSubjectRequest rt r₁ = decodePostSubjectRequest rt r₂ ∧
    ∀ subject, rt.jsonDecode r₁.Body = .ok subject →
      decodePostSubjectRequest rt r₂ = .ok (.postSubjectRequest subject) := by
  refine ⟨?_, ?_⟩
  · simp [decodePostSubjectRequest, hbody]
  · intro subject h
    rw [hbody] at h
    simp [decodePostSubjectRequest, h]

/-- C5 at worked inputs: the same body without an Authorization header, with a
header of one part, with the token of a plain user and with the token of an
administrator. -/
theorem post_decoder_reads_body_only_witness :
    decodePostSubjectRequest workedRuntime ⟨"POST", [], "engineering.json", []⟩
      = decodePostSubjectRequest workedRuntime
          ⟨"POST", [("Authorization", "Bearer user.jwt")], "engineering.json", []⟩ ∧
    decodePostSubjectRequest workedRuntime
        ⟨"POST", [("Authorization", "Bearer")], "engineering.json", []⟩
      = decodePostSubjectRequest workedRuntime (adminRequest "POST" "engineering.json") ∧
    decodePostSubjectRequest workedRuntime
        ⟨"POST", [("Authorization", "Bearer user.jwt")], "engineering.json", []⟩
      = .ok (.postSubjectRequest ⟨0, "", "", "", "", "Engineering", "department", 0⟩) :=
  ⟨(post_decoder_reads_body_only workedRuntime _ _ rfl).1,
   (post_decoder_reads_body_only workedRuntime _ _ rfl).1,
   (post_decoder_reads_body_only workedRuntime ⟨"POST", [], "engineering.json", []⟩
      ⟨"POST", [("Authorization", "Bearer user.jwt")], "engineering.json", []⟩ rfl).2 _ rfl⟩

/-- C6: the decorators never alter the result or the error.  For every inner
service and every call, the call on the logging decorator, on the metrics
decorator, and on the service NewService builds (metrics around logging around
the base service) returns the subjects and the error the same call on the inner
service returns; and with a tally of the calls made on the inner service, one
decorated call raises the tally by exactly one. -/
theorem decorators_preserve_results {W : Type} (logger : Logger W) (requestCount : Counter W)
    (requestLatency : Histogram W) (now : W → Int) (s : Service W) (env : ServiceEnv W)
    (c : Call) (w : W) (n : Nat) :
    ((LoggingMiddleware logger now s).call c w).1 = (s.call c w).1 ∧
    ((InstrumentingMiddleware requestCount requestLatency now s).call c w).1 = (s.call c w).1 ∧
    NewService logger requestCount requestLatency env
      = InstrumentingMiddleware requestCount requestLatency env.now
          (LoggingMiddleware logger env.now (NewBasicService env)) ∧
    ((NewService logger requestCount requestLatency env).call c w).1
      = ((NewBasicService env).call c w).1 ∧
    ((LoggingMiddleware (fun f m => besideTally (logger f m)) (fun p => now p.1)
        (counted s)).call c (w, n)).2.2 = n + 1 ∧
    ((InstrumentingMiddleware (fun l d => besideTally (requestCount l d))
        (fun l d => besideTally (requestLatency l d)) (fun p => now p.1)
        (counted s)).call c (w, n)).2.2 = n + 1 ∧
    ((InstrumentingMiddleware (fun l d => besideTally (requestCount l d))
        (fun l d => besideTally (requestLatency l d)) (fun p => now p.1)
        (LoggingMiddleware (fun f m => besideTally (logger f m)) (fun p => now p.1)
          (counted s))).call c (w, n)).2.2 = n + 1 := by
  cases c <;> exact ⟨rfl, rfl, rfl, rfl, rfl, rfl, rfl⟩

theorem scanRows_stops (um : String → Except GoError Subject)
    (good : List (String × Subject)) (bad : Except GoError String)
    (rest : List (Except GoError String)) (acc : List Subject)
    (hgood : ∀ p ∈ good, um p.1 = .ok p.2)
    (hbad : (∃ e, bad = .error e) ∨ (∃ res e, bad = .ok res ∧ um res = .error e)) :
    (scanRows um (good.map (fun p => .ok p.1) ++ bad :: rest) acc).1 = acc ++ good.map (fun p => p.2) ∧
    (scanRows um (good.map (fun p => .ok p.1) ++ bad :: rest) acc).2 ≠ none := by
  induction good generalizing acc with
  | nil =>
    rcases hbad with ⟨e, rfl⟩ | ⟨res, e, rfl, hres⟩
    · simp [scanRows]
    · simp [scanRows, hres]
  | cons p good ih =>
    have hp : um p.1 = .ok p.2 := hgood p (List.mem_cons_self _ _)
    have ih2 := ih (acc ++ [p.2]) (fun q hq => hgood q (List.mem_cons_of_mem _ hq))
    simpa [scanRows, hp] using ih2

/-- C7, as stated, fails: when the first row scans and parses and the scan of
the second row fails, GetSubjects returns the error together with the Subject
of the first row, not an empty sequence. -/
theorem partial_results_counterexample :
    (userService.GetSubjects (scriptedEnv Script.secondRowFails) ()).1
      = ([⟨7, "", "2024-01-01", "", "2024-01-01", "Sales", "department", 0⟩],
         some (.plain "GetSubjects rows.Scan: cannot scan into dest\n")) := by
  decide

/-- C7, amended: when `pgx.Connect` or the call `conn.Query` returns an error,
GetSubjects returns a non-nil error with an empty sequence; when the rows
before some row all scan and parse and that row fails to scan or to parse,
GetSubjects returns a non-nil error together with the Subjects of the rows
before it, in order (an empty sequence when the failing row is the first),
whatever `rows.Err()` holds. -/
theorem GetSubjects_on_failure {W : Type} (env : ServiceEnv W) (w : W) :
    (∀ err w₁, env.db.Connect (psqlInfo env) w = (some err, w₁) →
      (userService.GetSubjects env w).1
        = ([], some (Errorf "GetSubjects. Unable to connect to database: " err))) ∧
    (∀ w₁ err w₂, env.db.Connect (psqlInfo env) w = (none, w₁) →
      env.db.Query selectSQL w₁ = (.error err, w₂) →
      (userService.GetSubjects env w).1 = ([], some (Errorf "GetSubjects QueryRow: " err))) ∧
    (∀ w₁ w₂ (good : List (String × Subject)) (bad : Except GoError String)
        (rest : List (Except GoError String)) (rowsErr : Option GoError),
      env.db.Connect (psqlInfo env) w = (none, w₁) →
      env.db.Query selectSQL w₁
        = (.ok ⟨good.map (fun p => .ok p.1) ++ bad :: rest, rowsErr⟩, w₂) →
      (∀ p ∈ good, env.jsonUnmarshal p.1 = .ok p.2) →
      ((∃ e, bad = .error e) ∨ (∃ res e, bad = .ok res ∧ env.jsonUnmarshal res = .error e)) →
      (userService.GetSubjects env w).1.1 = good.map (fun p => p.2) ∧
      (userService.GetSubjects env w).1.2 ≠ none) := by
  refine ⟨?_, ?_, ?_⟩
  · intro err w₁ hc
    simp [userService.GetSubjects, hc]
  · intro w₁ err w₂ hc hq
    simp [userService.GetSubjects, hc, hq]
  · intro w₁ w₂ good bad rest rowsErr hc hq hgood hbad
    have h := scanRows_stops env.jsonUnmarshal good bad rest [] hgood hbad
    simpa [userService.GetSubjects, hc, hq] using h

/-- C7 amended, at worked inputs: a refused connection, a query the server
rejects, and a result whose second row fails to scan after the first row
parsed. -/
theorem GetSubjects_on_failure_witness :
    (userService.GetSubjects (scriptedEnv Script.refused) ()).1
      = ([], some (Errorf "GetSubjects. Unable to connect to database: "
          (.plain "connection refused"))) ∧
    (userService.GetSubjects
        (scriptedEnv { Script.allOk with query := .error (.plain "relation does not exist") }) ()).1
      = ([], some (Errorf "GetSubjects QueryRow: " (.plain "relation does not exist"))) ∧
    (userService.GetSubjects (scriptedEnv Script.secondRowFails) ()).1.1
      = [⟨7, "", "2024-01-01", "", "2024-01-01", "Sales", "department", 0⟩] ∧
    (userService.GetSubjects (scriptedEnv Script.secondRowFails) ()).1.2 ≠ none :=
  ⟨(GetSubjects_on_failure (scriptedEnv Script.refused) ()).1 _ () rfl,
   (GetSubjects_on_failure
      (scriptedEnv { Script.allOk with query := .error (.plain "relation does not exist") })
      ()).2.1 () _ () rfl rfl,
   (GetSubjects_on_failure (scriptedEnv Script.secondRowFails) ()).2.2 () ()
      [("sales.json", ⟨7, "", "2024-01-01", "", "2024-01-01", "Sales", "department", 0⟩)]
      (.error (.plain "cannot scan into dest")) [] none rfl rfl
      (by intro p hp; simp at hp; subst hp; rfl)
      (Or.inl ⟨_, rfl⟩)⟩

/-- GetSubjects does not read `rows.Err()`: what it returns for the rows
`rows.Next()` delivered is the same whatever error ended the stream.  At the
script whose query fails after one row it returns that row and a nil error. -/
theorem GetSubjects_ignores_rows_Err {W : Type} (env : ServiceEnv W) (w w₁ w₂ : W)
    (scans : List (Except GoError String)) (rowsErr : Option GoError)
    (hc : env.db.Connect (psqlInfo env) w = (none, w₁))
    (hq : env.db.Query selectSQL w₁ = (.ok ⟨scans, rowsErr⟩, w₂)) :
    (userService.GetSubjects env w).1 = scanRows env.jsonUnmarshal scans [] ∧
    (userService.GetSubjects (scriptedEnv Script.streamBreaks) ()).1
      = ([⟨7, "", "2024-01-01", "", "2024-01-01", "Sales", "department", 0⟩], none) := by
  refine ⟨?_, by decide⟩
  simp [userService.GetSubjects, hc, hq]

/-- C8: AddSubject runs its insert in one transaction.  Over any driver, the
journal of the driver calls AddSubject makes is one of four: a failed Connect
alone; Connect, a failed BeginTx and Close; Connect, BeginTx, the insert with a
non-nil error, then Rollback, then Close; Connect, BeginTx, the insert with no
error, then Commit, then Close.  AddSubject returns nil in the last case and a
non-nil error in the other three. -/
theorem AddSubject_transaction {W : Type} (env : ServiceEnv W) (subject : Subject) (w : W) :
    (∃ e, (userService.AddSubject (tracedEnv env) subject (w, [])).2.2
        = [.Connect (psqlInfo env) (some e)] ∧
      (userService.AddSubject (tracedEnv env) subject (w, [])).1 ≠ none) ∨
    (∃ e, (userService.AddSubject (tracedEnv env) subject (w, [])).2.2
        = [.Connect (psqlInfo env) none, .BeginTx (some e), .Close] ∧
      (userService.AddSubject (tracedEnv env) subject (w, [])).1 ≠ none) ∨
    (∃ t e r, (userService.AddSubject (tracedEnv env) subject (w, [])).2.2
        = [.Connect (psqlInfo env) none, .BeginTx none,
           .TxExec insertSQL (insertArgs subject t) (some e), .Rollback r, .Close] ∧
      (userService.AddSubject (tracedEnv env) subject (w, [])).1 ≠ none) ∨
    (∃ t c, (userService.AddSubject (tracedEnv env) subject (w, [])).2.2
        = [.Connect (psqlInfo env) none, .BeginTx none,
           .TxExec insertSQL (insertArgs subject t) none, .Commit c, .Close] ∧
      (userService.AddSubject (tracedEnv env) subject (w, [])).1 = none) := by
  have hinfo : psqlInfo (tracedEnv env) = psqlInfo env := rfl
  simp only [userService.AddSubject, hinfo]
  simp only [tracedEnv, traced]
  cases hc : (env.db.Connect (psqlInfo env) w).1 with
  | some e =>
    left
    exact ⟨e, by simp⟩
  | none =>
    right
    cases hb : (env.db.BeginTx (env.db.Connect (psqlInfo env) w).2).1 with
    | some e =>
      left
      exact ⟨e, by simp [hb]⟩
    | none =>
      right
      cases hx : (env.db.TxExec insertSQL
          (insertArgs subject (env.now (env.db.BeginTx (env.db.Connect (psqlInfo env) w).2).2))
          (env.db.BeginTx (env.db.Connect (psqlInfo env) w).2).2).1 with
      | some e =>
        left
        exact ⟨_, e, _, by simp [hb, hx]; exact ⟨rfl, rfl⟩⟩
      | none =>
        right
        exact ⟨_, _, by simp [hb, hx]; exact ⟨rfl, rfl⟩⟩

/-- The four journals of AddSubject at scripted drivers: every call succeeds,
the insert fails, BeginTx fails, the connection is refused. -/
theorem AddSubject_journals_at_scripts :
    userService.AddSubject (tracedEnv (scriptedEnv Script.allOk))
        ⟨0, "", "", "", "", "Engineering", "department", 0⟩ ((), [])
      = (none, ((),
          [.Connect "host=localhost port=5432 user=postgres password=pgpassword dbname=generate sslmode=disable" none,
           .BeginTx none,
           .TxExec insertSQL
             [.text "", .timestamp 0, .text "", .text "", .timestamp 0, .text "Engineering",
              .text "department", .int 0] none,
           .Commit none, .Close])) ∧
    (userService.AddSubject
        (tracedEnv (scriptedEnv { Script.allOk with exec := some (.plain "syntax error") }))
        ⟨0, "", "", "", "", "Engineering", "department", 0⟩ ((), [])).2.2
      = [.Connect "host=localhost port=5432 user=postgres password=pgpassword dbname=generate sslmode=disable" none,
         .BeginTx none,
         .TxExec insertSQL
           [.text "", .timestamp 0, .text "", .text "", .timestamp 0, .text "Engineering",
            .text "department", .int 0] (some (.plain "syntax error")),
         .Rollback none, .Close] ∧
    (userService.AddSubject
        (tracedEnv (scriptedEnv { Script.allOk with beginTx := some (.plain "conn busy") }))
        ⟨0, "", "", "", "", "Engineering", "department", 0⟩ ((), [])).2.2
      = [.Connect "host=localhost port=5432 user=postgres password=pgpassword dbname=generate sslmode=disable" none,
         .BeginTx (some (.plain "conn busy")), .Close] ∧
    (userService.AddSubject (tracedEnv (scriptedEnv Script.refused))
        ⟨0, "", "", "", "", "Engineering", "department", 0⟩ ((), [])).2.2
      = [.Connect "host=localhost port=5432 user=postgres password=pgpassword dbname=generate sslmode=disable"
          (some (.plain "connection refused"))] := by
  refine ⟨by decide, by decide, by decide, by decide⟩

/-- C9, on the code: the insert statement has 7 placeholders and AddSubject
passes 8 arguments (the description twice).  Over the table in memory, whose
driver rejects a statement whose argument count differs from its placeholder
count, AddSubject returns an error for every Subject and leaves the table as
it was, so GetSubjects on a table that was empty still returns no Subject. -/
theorem insert_argument_count_mismatch :
    placeholders insertSQL = 7 ∧
    (∀ (subject : Subject) (t : Int), (insertArgs subject t).length = 8) ∧
    (∀ (toJSON : List SqlArg → String) (um : String → Except GoError Subject)
        (subject : Subject) (rows : List (List SqlArg)),
      userService.AddSubject (memEnv toJSON um) subject ⟨rows, []⟩
        = (some (.plain "AddSubject insert into subject: mismatched param and argument count\n"),
           ⟨rows, []⟩)) ∧
    (∀ (toJSON : List SqlArg → String) (um : String → Except GoError Subject),
      (userService.GetSubjects (memEnv toJSON um)
        (userService.AddSubject (memEnv toJSON um)
          ⟨0, "", "", "", "", "Engineering", "department", 0⟩ ⟨[], []⟩).2).1 = ([], none)) := by
  have hp : placeholders insertSQL = 7 := by decide
  have hadd : ∀ (toJSON : List SqlArg → String) (um : String → Except GoError Subject)
      (subject : Subject) (rows : List (List SqlArg)),
      userService.AddSubject (memEnv toJSON um) subject ⟨rows, []⟩
        = (some (.plain "AddSubject insert into subject: mismatched param and argument count\n"),
           ⟨rows, []⟩) := by
    intro toJSON um subject rows
    have hmsg : Errorf "AddSubject insert into subject: "
        (argumentCountError insertSQL (insertArgs subject 0))
        = .plain "AddSubject insert into subject: mismatched param and argument count\n" := by
      simp only [Errorf, argumentCountError, hp, insertArgs, GoError.Error, List.length]
      decide
    have hlen : (insertArgs subject 0).length = 8 := rfl
    simp [userService.AddSubject, memEnv, memPgx, hp, hlen, hmsg]
  refine ⟨hp, fun _ _ => rfl, hadd, ?_⟩
  intro toJSON um
  rw [hadd]
  simp [userService.GetSubjects, memEnv, memPgx, scanRows]

theorem metrics_around_logging_events {S : Type} (now : S × List Event → Int)
    (s : Service (S × List Event)) (c : Call) (w : S × List Event) :
    ∃ took d,
      (InstrumentingMiddleware recordCount recordObserve now
          (LoggingMiddleware recordLog now s)).call c w
        = ((s.call c w).1,
           ((s.call c w).2.1,
            (s.call c w).2.2 ++
              [.log ⟨took, (s.call c w).1.2⟩ ("method == " ++ c.logName),
               .counterAdd
                 ["method", c.metricName, "error", SprintBool (s.call c w).1.2.isSome] 1,
               .observe
                 ["method", c.metricName, "error", SprintBool (s.call c w).1.2.isSome] d])) := by
  refine ⟨Milliseconds (now (s.call c w).2 - now w),
    now ((s.call c w).2.1,
      ((s.call c w).2.2 ++
        [.log ⟨Milliseconds (now (s.call c w).2 - now w), (s.call c w).1.2⟩
           ("method == " ++ c.logName)]) ++
        [.counterAdd
           ["method", c.metricName, "error", SprintBool (s.call c w).1.2.isSome] 1]) - now w,
    ?_⟩
  cases c <;>
    simp [Service.call, InstrumentingMiddleware, LoggingMiddleware, instrumentCall, logCall,
      recordLog, recordCount, recordObserve, Call.logName, Call.metricName]

/-- C10: decorator ordering and error flag.  For every call on the service
NewService builds, over any driver and from any state, the call returns what
the base service returns and leaves, after the events the base call left,
exactly one log record, then one counter increment, then one histogram
observation; the error field of the log record is the error the base call
returned, and the label value after "error" is "true" exactly when that error
is non-nil. -/
theorem decorator_events_in_order {S : Type} (env : ServiceEnv (S × List Event)) (c : Call)
    (w : S × List Event) :
    (∃ took d,
      (NewService recordLog recordCount recordObserve env).call c w
        = (((NewBasicService env).call c w).1,
           (((NewBasicService env).call c w).2.1,
            ((NewBasicService env).call c w).2.2 ++
              [.log ⟨took, ((NewBasicService env).call c w).1.2⟩ ("method == " ++ c.logName),
               .counterAdd
                 ["method", c.metricName, "error",
                  SprintBool ((NewBasicService env).call c w).1.2.isSome] 1,
               .observe
                 ["method", c.metricName, "error",
                  SprintBool ((NewBasicService env).call c w).1.2.isSome] d]))) ∧
    (((NewBasicService env).call c w).1.2 ≠ none ↔
      SprintBool ((NewBasicService env).call c w).1.2.isSome = "true") := by
  refine ⟨metrics_around_logging_events env.now (NewBasicService env) c w, ?_⟩
  cases h : ((NewBasicService env).call c w).1.2 <;> simp [SprintBool]

theorem accessControl_options {W : Type} (h : Handler W) (r : HTTPRequest) (st : W)
    (hm : r.Method = "OPTIONS") :
    accessControl h r ResponseWriter.fresh st
      = some (corsWriter (HeaderGet r.Header "Origin"), st) := by
  by_cases ho : HeaderGet r.Header "Origin" = ""
  · simp [accessControl, hm, ho, corsWriter, ResponseWriter.HeaderSet, ResponseWriter.fresh]
  · simp [accessControl, hm, ho, corsWriter, ResponseWriter.HeaderSet, ResponseWriter.fresh]

/-- C11, as stated, fails for GET /metrics: that route is registered for the
method GET only and is not wrapped by accessControl, so a request with method
OPTIONS to /metrics is answered by the router with 405 and no handler runs;
the response is not a 200 with the Access-Control headers. -/
theorem options_metrics_counterexample :
    routerServeHTTP (MakeHTTPHandler tallyService workedRuntime (fun _ st => st)
        tallyMetricsHandler)
      ⟨"OPTIONS", "/metrics", [("Origin", "https://example.org")], ""⟩ ResponseWriter.fresh 0
      = .methodNotAllowed ∧
    (routerServeHTTP (MakeHTTPHandler tallyService workedRuntime (fun _ st => st)
        tallyMetricsHandler)
      ⟨"OPTIONS", "/metrics", [("Origin", "https://example.org")], ""⟩ ResponseWriter.fresh
      0).status = some 405 ∧
    (matchPath "/metrics" "/metrics").isSome = true := by
  refine ⟨rfl, by decide, by decide⟩

/-- C11, amended: for each of the four subject routes registered by
MakeHTTPHandler (GET /subjects, POST /subject, PUT /subject,
DELETE /subject/{id}) and every request to that path with method OPTIONS, the
response has status 200, an empty body, Access-Control-Allow-Origin equal to
the Origin header of the request (or "*" when Origin is absent or empty), with
the fixed Allow-Methods and Allow-Headers values, and the state of the world is
the one before the request: accessControl returns before it calls the handler
it wraps, whatever that handler is. -/
theorem options_preflight {W : Type} (s : Service W) (rt : Runtime) (logger : GoError → W → W)
    (metricsHandler : Handler W) (req : ServerRequest) (st : W)
    (hm : req.Method = "OPTIONS")
    (hp : (matchPath "/subjects" req.Path).isSome = true ∨
      (matchPath "/subject" req.Path).isSome = true ∨
      (matchPath "/subject/{id}" req.Path).isSome = true) :
    routerServeHTTP (MakeHTTPHandler s rt logger metricsHandler) req ResponseWriter.fresh st
      = .handled (some (corsWriter (HeaderGet req.Header "Origin"), st)) ∧
    (corsWriter (HeaderGet req.Header "Origin")).sentStatus = 200 ∧
    (corsWriter (HeaderGet req.Header "Origin")).body = [] ∧
    HeaderGet (corsWriter (HeaderGet req.Header "Origin")).header "Access-Control-Allow-Origin"
      = (if HeaderGet req.Header "Origin" ≠ "" then HeaderGet req.Header "Origin" else "*") ∧
    HeaderGet (corsWriter (HeaderGet req.Header "Origin")).header "Access-Control-Allow-Methods"
      = "POST, GET, OPTIONS, PUT, DELETE" ∧
    HeaderGet (corsWriter (HeaderGet req.Header "Origin")).header "Access-Control-Allow-Headers"
      = "Authorization, Origin, Accept, Content-Type, Content-Length, Accept-Encoding" ∧
    (∀ (h : Handler W) (vars : List (String × String)),
      accessControl h ⟨req.Method, req.Header, req.Body, vars⟩ ResponseWriter.fresh st
        = some (corsWriter (HeaderGet req.Header "Origin"), st)) := by
  have hac : ∀ (h : Handler W) (vars : List (String × String)),
      accessControl h ⟨req.Method, req.Header, req.Body, vars⟩ ResponseWriter.fresh st
        = some (corsWriter (HeaderGet req.Header "Origin"), st) :=
    fun h vars => accessControl_options h ⟨req.Method, req.Header, req.Body, vars⟩ st hm
  refine ⟨?_, rfl, rfl, ?_, ?_, ?_, hac⟩
  · simp only [routerServeHTTP, MakeHTTPHandler, routerMatch, hm]
    cases h1 : matchPath "/subjects" req.Path with
    | some vars => simp [accessControl_options]
    | none =>
      cases h2 : matchPath "/subject" req.Path with
      | some vars => simp [accessControl_options]
      | none =>
        cases h3 : matchPath "/subject/{id}" req.Path with
        | some vars => simp [accessControl_options]
        | none => simp [h1, h2, h3] at hp
  · simp [HeaderGet, corsWriter, List.lookup]
  · simp [HeaderGet, corsWriter, List.lookup]
  · simp [HeaderGet, corsWriter, List.lookup]

/-- C11 amended, at a worked input: OPTIONS /subject/7 with an Origin header,
sent to a service and a metrics handler that count their calls, is answered
with the three headers and leaves the tally at 0. -/
theorem options_preflight_witness :
    (matchPath "/subject/{id}" "/subject/7").isSome = true ∧
    routerServeHTTP (MakeHTTPHandler tallyService workedRuntime (fun _ st => st)
        tallyMetricsHandler)
      ⟨"OPTIONS", "/subject/7", [("Origin", "https://example.org")], ""⟩ ResponseWriter.fresh 0
      = .handled (some (corsWriter "https://example.org", 0)) :=
  ⟨by decide,
   (options_preflight tallyService workedRuntime (fun _ st => st) tallyMetricsHandler
      ⟨"OPTIONS", "/subject/7", [("Origin", "https://example.org")], ""⟩ 0 rfl
      (Or.inr (Or.inr (by decide)))).1⟩

end BackendSubject
